import Mathlib

/-!
Verification of `gold_price_server.py`: a shallow embedding of the SQL safety
gate, the query executor and the tool surface of the gold-price MCP server,
together with proofs of the specification's claims about them.

Python strings are modelled as `String`/`List Char`; the Python string
operations used by the source (`strip`, `lower`, `startswith`, `in`,
`rstrip`, `rstrip(';')`) are given explicit executable models.  The SQLite
driver and the filesystem are modelled as an explicit environment `Env`
holding the outcome of each external probe; operations are pure functions of
that environment.
-/

namespace GoldPriceServer

/-- Model of Python `str.isspace` characters relevant to `strip`/`rstrip`:
the six ASCII whitespace characters Python strips. -/
def pyIsSpace (c : Char) : Bool :=
  c = ' ' || c = '\t' || c = '\n' || c = '\r' || c = '\x0b' || c = '\x0c'

/-- Model of Python `str.lstrip()` (no arguments): drop leading whitespace. -/
def pyLstrip (s : List Char) : List Char := s.dropWhile pyIsSpace

/-- Model of Python `str.rstrip()` (no arguments): drop trailing whitespace. -/
def pyRstrip (s : List Char) : List Char := (s.reverse.dropWhile pyIsSpace).reverse

/-- Model of Python `str.strip()`: drop leading and trailing whitespace. -/
def pyStrip (s : List Char) : List Char := pyRstrip (pyLstrip s)

/-- Model of Python `str.lower()` on the ASCII range (`Char.toLower` maps
`A`-`Z` to `a`-`z` and leaves everything else unchanged). -/
def pyLower (s : List Char) : List Char := s.map Char.toLower

/-- Model of Python `str.rstrip(';')`: drop trailing semicolons. -/
def pyRstripSemi (s : List Char) : List Char := (s.reverse.dropWhile (· == ';')).reverse

/-- Model of the Python substring test `needle in hay`: some suffix of `hay`
starts with `needle` (the empty needle is in every string). -/
def isSubstring (needle : List Char) : List Char → Bool
  | [] => needle.isEmpty
  | c :: t => needle.isPrefixOf (c :: t) || isSubstring needle t

/-- The forbidden keyword list of `is_safe_sql` (source lines 44-47). -/
def forbidden_keywords : List String :=
  ["insert", "update", "delete", "drop", "alter", "create",
   "truncate", "replace", "pragma", "attach", "detach"]

/-- Core of `is_safe_sql` (source lines 28-58) on the character list of the
input.  The checks appear in source order: non-empty input, normalisation by
`strip().lower()`, the `startswith("select")` test, the `gold_price`
substring test, the semicolon test exactly as written on source line 50
(`";" in sql_lower and sql_lower.rstrip().rstrip(';') != sql_lower.rstrip()`),
and the forbidden-keyword loop. -/
def is_safe_sql_chars (s : List Char) : Bool :=
  if s.isEmpty then false
  else
    let sql_lower := pyLower (pyStrip s)
    if !(List.isPrefixOf "select".data sql_lower) then false
    else if !(isSubstring "gold_price".data sql_lower) then false
    else if isSubstring [';'] sql_lower
            && !(pyRstripSemi (pyRstrip sql_lower) == pyRstrip sql_lower) then false
    else if forbidden_keywords.any (fun k => isSubstring k.data sql_lower) then false
    else true

/-- Model of `is_safe_sql` (source lines 28-58). -/
def is_safe_sql (sql : String) : Bool := is_safe_sql_chars sql.data

/-- The resolved absolute database path `os.path.abspath(SQLITE_DB_PATH)`
(source line 9; the configured path is already absolute). -/
def dbPathAbsStr : String := "/workspaces/MCP_Projects/gold_price.db"

/-- Error message of `execute_sql_query`/`get_table_info` when the database
is missing or lacks the table (source lines 66 and 122). -/
def setupErrorMsg : String :=
  "Database not found or invalid. Please run 'python create_sample_db.py' first."

/-- The fixed rejection message of `execute_sql_query` for unsafe SQL
(source line 72). -/
def rejectionMsg : String :=
  "Only safe SELECT queries on the gold_price table are allowed."

/-- Environment of the operations: outcome of each external probe the server
makes (filesystem existence test, `sqlite3.connect`, the `sqlite_master`
table lookup, a generic query execution, `PRAGMA table_info`, and the
`COUNT(*)` query).  `ρ` is the type modelling one fetched row. -/
structure Env (ρ : Type) where
  fileExists : Bool
  dbPathAbs : String
  connectOk : Bool
  connectErrMsg : String
  tableProbe : Except String Bool
  exec : String → Except String (List ρ)
  pragmaInfo : Except String (List ρ)
  countRows : Except String Nat

/-- Model of `check_database_exists` (source lines 14-26): false when the
file is missing, when `sqlite3.connect` raises, or when the `sqlite_master`
lookup raises; otherwise whether the lookup found the `gold_price` table. -/
def check_database_exists {ρ : Type} (env : Env ρ) : Bool :=
  if !env.fileExists then false
  else if !env.connectOk then false
  else
    match env.tableProbe with
    | .ok found => found
    | .error _ => false

/-- Result shape of `execute_sql_query` (source lines 60-97): either the
success dictionary `{success, data, row_count, query}` or an error
dictionary `{error}` optionally carrying `database_path`. -/
inductive QueryResult (ρ : Type) where
  | success (data : List ρ) (row_count : Nat) (query : String)
  | failure (error : String) (database_path : Option String)

/-- Model of `execute_sql_query` (source lines 60-97): existence check, then
safety gate, then connect and execute inside try/except/finally. -/
def execute_sql_query {ρ : Type} (env : Env ρ) (sql : String) : QueryResult ρ :=
  if !check_database_exists env then
    .failure setupErrorMsg (some env.dbPathAbs)
  else if !(is_safe_sql sql) then
    .failure rejectionMsg none
  else if !env.connectOk then
    .failure ("SQLite error: " ++ env.connectErrMsg) none
  else
    match env.exec sql with
    | .ok rows => .success rows rows.length sql
    | .error e => .failure ("SQLite error: " ++ e) none

/-- Model of the `run_query` tool (source lines 99-110): delegates to
`execute_sql_query` with the caller's string. -/
def run_query {ρ : Type} (env : Env ρ) (sql : String) : QueryResult ρ :=
  execute_sql_query env sql

/-- Result shape of `get_table_info` (source lines 112-153). -/
inductive TableInfoResult (ρ : Type) where
  | success (table_name : String) (columns : List ρ) (row_count : Nat)
      (database_path : String)
  | failure (error : String) (database_path : Option String)

/-- Model of the `get_table_info` tool (source lines 112-153). -/
def get_table_info {ρ : Type} (env : Env ρ) : TableInfoResult ρ :=
  if !check_database_exists env then
    .failure setupErrorMsg (some env.dbPathAbs)
  else if !env.connectOk then
    .failure ("SQLite error: " ++ env.connectErrMsg) none
  else
    match env.pragmaInfo with
    | .error e => .failure ("SQLite error: " ++ e) none
    | .ok cols =>
      match env.countRows with
      | .error e => .failure ("SQLite error: " ++ e) none
      | .ok n => .success "gold_price" cols n env.dbPathAbs

/-- Model of the `sample_data` tool (source lines 155-163). -/
def sample_data {ρ : Type} (env : Env ρ) : QueryResult ρ :=
  execute_sql_query env "SELECT * FROM gold_price ORDER BY date DESC LIMIT 5"

/-- Model of the `get_latest_price` tool (source lines 165-173). -/
def get_latest_price {ρ : Type} (env : Env ρ) : QueryResult ρ :=
  execute_sql_query env "SELECT * FROM gold_price ORDER BY date DESC LIMIT 1"

/-- The interpolated query of `get_price_range` (source line 189): the
f-string interpolates the decimal representation of `days`. -/
def rangeQueryStr (days : Int) : String :=
  "SELECT * FROM gold_price ORDER BY date DESC LIMIT " ++ toString days

/-- Model of the `get_price_range` tool (source lines 175-189): range check
on `days`, then delegation with the interpolated fixed query. -/
def get_price_range {ρ : Type} (env : Env ρ) (days : Int) : QueryResult ρ :=
  if days < 1 ∨ days > 365 then .failure "Days must be between 1 and 365" none
  else execute_sql_query env (rangeQueryStr days)

/-- The enumerated states of `database_status` (source lines 191-234). -/
inductive StatusKind where
  | missing
  | invalid
  | ready
  | error
  deriving DecidableEq

/-- Result shape of `database_status` (source lines 191-234). -/
structure StatusResult where
  status : StatusKind
  message : String
  database_path : String
  record_count : Option Nat
  setup_instructions : Option String

/-- Model of the `database_status` tool (source lines 191-234): file
existence, then table existence via `check_database_exists`, then the row
count inside try/except. -/
def database_status {ρ : Type} (env : Env ρ) : StatusResult :=
  if !env.fileExists then
    { status := .missing
      message := "Database file does not exist"
      database_path := env.dbPathAbs
      record_count := none
      setup_instructions :=
        some "Run 'python create_sample_db.py' to create the database with sample data" }
  else if !check_database_exists env then
    { status := .invalid
      message := "Database exists but gold_price table is missing"
      database_path := env.dbPathAbs
      record_count := none
      setup_instructions := some "Run 'python create_sample_db.py' to recreate the database" }
  else if !env.connectOk then
    { status := .error
      message := "Database error: " ++ env.connectErrMsg
      database_path := env.dbPathAbs
      record_count := none
      setup_instructions := none }
  else
    match env.countRows with
    | .ok n =>
      { status := .ready
        message := "Database is ready with " ++ toString n ++ " records"
        database_path := env.dbPathAbs
        record_count := some n
        setup_instructions := none }
    | .error e =>
      { status := .error
        message := "Database error: " ++ e
        database_path := env.dbPathAbs
        record_count := none
        setup_instructions := none }

/-- Connection events for the resource model: one `sqlite3.connect` call,
one `conn.close()` call. -/
inductive ConnEv where
  | opened
  | closed
  deriving DecidableEq

/-- Trace model of `check_database_exists` (source lines 14-26): the value
returned together with the connection events of the call, following the
Python control flow.  The body has no `finally` clause, so when the
`sqlite_master` lookup raises `sqlite3.Error` after a successful connect,
the function returns from the `except` arm without reaching `conn.close()`. -/
def check_database_exists_tr {ρ : Type} (env : Env ρ) : Bool × List ConnEv :=
  if !env.fileExists then (false, [])
  else if !env.connectOk then (false, [])
  else
    match env.tableProbe with
    | .ok found => (found, [.opened, .closed])
    | .error _ => (false, [.opened])

/-- Trace model of `execute_sql_query` (source lines 60-97): its `finally`
clause closes the connection on the success and on the error path alike. -/
def execute_sql_query_tr {ρ : Type} (env : Env ρ) (sql : String) :
    QueryResult ρ × List ConnEv :=
  let chk := check_database_exists_tr env
  if !chk.1 then (.failure setupErrorMsg (some env.dbPathAbs), chk.2)
  else if !(is_safe_sql sql) then (.failure rejectionMsg none, chk.2)
  else if !env.connectOk then
    (.failure ("SQLite error: " ++ env.connectErrMsg) none, chk.2)
  else
    match env.exec sql with
    | .ok rows => (.success rows rows.length sql, chk.2 ++ [.opened, .closed])
    | .error e => (.failure ("SQLite error: " ++ e) none, chk.2 ++ [.opened, .closed])

/-- Trace model of `database_status` (source lines 191-234): the second
branch runs `check_database_exists` (which opens and may leak its own
connection), and the counting stage opens a second connection with no
`finally` clause, so a `sqlite3.Error` raised by the `COUNT(*)` query
reaches the `except` arm without `conn.close()` having run. -/
def database_status_tr {ρ : Type} (env : Env ρ) : StatusResult × List ConnEv :=
  if !env.fileExists then (database_status env, [])
  else
    let chk := check_database_exists_tr env
    if !chk.1 then (database_status env, chk.2)
    else if !env.connectOk then (database_status env, chk.2)
    else
      match env.countRows with
      | .ok _ => (database_status env, chk.2 ++ [.opened, .closed])
      | .error _ => (database_status env, chk.2 ++ [.opened])

/-- The fixed prefix of the `get_price_range` query (source line 189). -/
def baseQueryStr : String := "SELECT * FROM gold_price ORDER BY date DESC LIMIT "

/-- The ten decimal digit characters. -/
def digitChars : List Char := ['0', '1', '2', '3', '4', '5', '6', '7', '8', '9']

lemma digitChar_mem {m : Nat} (h : m < 10) : Nat.digitChar m ∈ digitChars := by
  interval_cases m <;> decide

lemma toDigitsCore_mem (fuel : Nat) :
    ∀ (n : Nat) (ds : List Char), (∀ c ∈ ds, c ∈ digitChars) →
      ∀ c ∈ Nat.toDigitsCore 10 fuel n ds, c ∈ digitChars := by
  induction fuel with
  | zero => intro n ds hds c hc; simp only [Nat.toDigitsCore] at hc; exact hds c hc
  | succ f ih =>
    intro n ds hds c hc
    simp only [Nat.toDigitsCore] at hc
    by_cases h10 : n / 10 = 0
    · rw [if_pos h10] at hc
      rcases List.mem_cons.mp hc with h | h
      · exact h ▸ digitChar_mem (Nat.mod_lt _ (by omega))
      · exact hds c h
    · rw [if_neg h10] at hc
      refine ih (n / 10) _ ?_ c hc
      intro d hd
      rcases List.mem_cons.mp hd with h | h
      · exact h ▸ digitChar_mem (Nat.mod_lt _ (by omega))
      · exact hds d h

lemma toDigitsCore_length_ge (fuel : Nat) :
    ∀ (n : Nat) (ds : List Char), ds.length ≤ (Nat.toDigitsCore 10 fuel n ds).length := by
  induction fuel with
  | zero => intro n ds; simp [Nat.toDigitsCore]
  | succ f ih =>
    intro n ds
    simp only [Nat.toDigitsCore]
    by_cases h10 : n / 10 = 0
    · rw [if_pos h10]; simp
    · rw [if_neg h10]
      calc ds.length ≤ ((n % 10).digitChar :: ds).length := by simp
        _ ≤ _ := ih (n / 10) _

lemma toDigits_ne_nil (n : Nat) : Nat.toDigits 10 n ≠ [] := by
  have h1 : 1 ≤ (Nat.toDigits 10 n).length := by
    show 1 ≤ (Nat.toDigitsCore 10 (n + 1) n []).length
    simp only [Nat.toDigitsCore]
    by_cases h10 : n / 10 = 0
    · rw [if_pos h10]; simp
    · rw [if_neg h10]
      have h2 := toDigitsCore_length_ge n (n / 10) [(n % 10).digitChar]
      simpa using h2
  intro h
  rw [h] at h1
  simp at h1

lemma toDigits_mem (n : Nat) : ∀ c ∈ Nat.toDigits 10 n, c ∈ digitChars :=
  toDigitsCore_mem (n + 1) n [] (by simp)

lemma digit_not_space {c : Char} (h : c ∈ digitChars) : pyIsSpace c = false := by
  have h10 : ∀ c ∈ digitChars, pyIsSpace c = false := by decide
  exact h10 c h

lemma digit_toLower {c : Char} (h : c ∈ digitChars) : Char.toLower c = c := by
  have h10 : ∀ c ∈ digitChars, Char.toLower c = c := by decide
  exact h10 c h

lemma pyLower_digits {D : List Char} (hD : ∀ c ∈ D, c ∈ digitChars) : pyLower D = D := by
  unfold pyLower
  induction D with
  | nil => rfl
  | cons c t ih =>
    simp only [List.map_cons]
    rw [digit_toLower (hD c (List.mem_cons_self c t)),
      ih (fun d hd => hD d (List.mem_cons_of_mem _ hd))]

lemma pyRstrip_append_digits (l D : List Char) (hD : ∀ c ∈ D, c ∈ digitChars)
    (hne : D ≠ []) : pyRstrip (l ++ D) = l ++ D := by
  unfold pyRstrip
  rw [List.reverse_append]
  rcases hr : D.reverse with _ | ⟨d, t⟩
  · exact absurd (List.reverse_eq_nil_iff.mp hr) hne
  · have hd : d ∈ D := by
      rw [← List.mem_reverse, hr]; exact List.mem_cons_self d t
    have hds := digit_not_space (hD d hd)
    rw [List.cons_append, List.dropWhile_cons, if_neg (by simp [hds])]
    calc (d :: (t ++ l.reverse)).reverse
        = ((d :: t) ++ l.reverse).reverse := rfl
      _ = (D.reverse ++ l.reverse).reverse := by rw [hr]
      _ = l ++ D := by
          rw [List.reverse_append, List.reverse_reverse, List.reverse_reverse]

lemma pyLstrip_base_append (D : List Char) :
    pyLstrip (baseQueryStr.data ++ D) = baseQueryStr.data ++ D := by
  rw [show baseQueryStr.data ++ D
      = 'S' :: ("ELECT * FROM gold_price ORDER BY date DESC LIMIT ".data ++ D) from rfl]
  rw [pyLstrip, List.dropWhile_cons, if_neg (by decide)]

lemma pyStrip_base_append (D : List Char) (hD : ∀ c ∈ D, c ∈ digitChars)
    (hne : D ≠ []) : pyStrip (baseQueryStr.data ++ D) = baseQueryStr.data ++ D := by
  unfold pyStrip
  rw [pyLstrip_base_append, pyRstrip_append_digits _ _ hD hne]

lemma isSubstring_nil_left (l : List Char) : isSubstring [] l = true := by
  cases l with
  | nil => rfl
  | cons c t => simp [isSubstring, List.isPrefixOf]

lemma isPrefixOf_append_left (p l t : List Char) (h : List.isPrefixOf p l = true) :
    List.isPrefixOf p (l ++ t) = true := by
  induction p generalizing l with
  | nil => simp [List.isPrefixOf]
  | cons a p' ih =>
    cases l with
    | nil => simp [List.isPrefixOf] at h
    | cons b l' =>
      simp only [List.cons_append, List.isPrefixOf, Bool.and_eq_true] at h ⊢
      exact ⟨h.1, ih l' h.2⟩

lemma isSubstring_append_left (nd h t : List Char) (hs : isSubstring nd h = true) :
    isSubstring nd (h ++ t) = true := by
  induction h with
  | nil =>
    have hnd : nd = [] := by
      cases nd with
      | nil => rfl
      | cons a nd' => simp [isSubstring, List.isEmpty] at hs
    rw [hnd, List.nil_append]
    exact isSubstring_nil_left t
  | cons c h' ih =>
    rw [List.cons_append]
    simp only [isSubstring, Bool.or_eq_true] at hs ⊢
    rcases hs with hs | hs
    · left
      have h2 := isPrefixOf_append_left nd (c :: h') t hs
      rwa [List.cons_append] at h2
    · right; exact ih hs

lemma isSubstring_singleton_mem {c : Char} {l : List Char}
    (h : isSubstring [c] l = true) : c ∈ l := by
  induction l with
  | nil => simp [isSubstring, List.isEmpty] at h
  | cons a t ih =>
    simp only [isSubstring, Bool.or_eq_true] at h
    rcases h with h | h
    · simp only [List.isPrefixOf, Bool.and_eq_true, beq_iff_eq] at h
      simp [h]
    · exact List.mem_cons_of_mem a (ih h)

lemma isSubstring_digits_false {a : Char} {nd t : List Char}
    (ha : a ∉ digitChars) (ht : ∀ c ∈ t, c ∈ digitChars) :
    isSubstring (a :: nd) t = false := by
  induction t with
  | nil => rfl
  | cons x t' ih =>
    have hax : (a == x) = false := by
      refine beq_eq_false_iff_ne.mpr ?_
      intro he; exact ha (he ▸ ht x (List.mem_cons_self x t'))
    simp only [isSubstring, List.isPrefixOf, hax, Bool.false_and, Bool.false_or]
    exact ih (fun c hc => ht c (List.mem_cons_of_mem _ hc))

lemma isPrefixOf_digits_append_false {nd l t : List Char}
    (hnd : ∀ c ∈ nd, c ∉ digitChars) (ht : ∀ c ∈ t, c ∈ digitChars)
    (h : List.isPrefixOf nd l = false) :
    List.isPrefixOf nd (l ++ t) = false := by
  induction nd generalizing l with
  | nil => simp [List.isPrefixOf] at h
  | cons a nd' ih =>
    cases l with
    | nil =>
      rw [List.nil_append]
      cases t with
      | nil => rfl
      | cons x t' =>
        have hax : (a == x) = false := by
          refine beq_eq_false_iff_ne.mpr ?_
          intro he
          exact hnd a (List.mem_cons_self a nd') (he ▸ ht x (List.mem_cons_self x t'))
        simp [List.isPrefixOf, hax]
    | cons b l' =>
      rw [List.cons_append]
      by_cases hab : (a == b) = true
      · have h' : List.isPrefixOf nd' l' = false := by
          simp only [List.isPrefixOf, hab, Bool.true_and] at h
          exact h
        have h2 := ih (fun c hc => hnd c (List.mem_cons_of_mem _ hc)) h'
        simp [List.isPrefixOf, h2]
      · have hab' : (a == b) = false := by
          cases hx : (a == b)
          · rfl
          · exact absurd hx hab
        simp [List.isPrefixOf, hab']

lemma isSubstring_digits_append_false {nd h t : List Char} (hnil : nd ≠ [])
    (hnd : ∀ c ∈ nd, c ∉ digitChars) (ht : ∀ c ∈ t, c ∈ digitChars)
    (hh : isSubstring nd h = false) :
    isSubstring nd (h ++ t) = false := by
  obtain ⟨a, nd', rfl⟩ : ∃ a nd', nd = a :: nd' := by
    cases nd with
    | nil => exact absurd rfl hnil
    | cons a nd' => exact ⟨a, nd', rfl⟩
  induction h with
  | nil =>
    rw [List.nil_append]
    exact isSubstring_digits_false (hnd a (List.mem_cons_self a nd')) ht
  | cons b h' ih =>
    simp only [isSubstring, Bool.or_eq_false_iff] at hh
    rw [List.cons_append]
    simp only [isSubstring, Bool.or_eq_false_iff]
    constructor
    · have h2 := isPrefixOf_digits_append_false hnd ht hh.1
      rwa [List.cons_append] at h2
    · exact ih hh.2

lemma limit_query_chars_safe (n : Nat) :
    is_safe_sql_chars (baseQueryStr.data ++ Nat.toDigits 10 n) = true := by
  have hD := toDigits_mem n
  have hne := toDigits_ne_nil n
  have hmap : List.map Char.toLower (Nat.toDigits 10 n) = Nat.toDigits 10 n :=
    pyLower_digits hD
  have hlow : pyLower (pyStrip (baseQueryStr.data ++ Nat.toDigits 10 n))
      = pyLower baseQueryStr.data ++ Nat.toDigits 10 n := by
    rw [pyStrip_base_append _ hD hne]
    unfold pyLower
    rw [List.map_append, hmap]
  have hempty : (baseQueryStr.data ++ Nat.toDigits 10 n).isEmpty = false := by
    rw [show baseQueryStr.data ++ Nat.toDigits 10 n
        = 'S' :: ("ELECT * FROM gold_price ORDER BY date DESC LIMIT ".data
            ++ Nat.toDigits 10 n) from rfl]
    rfl
  have hsel : List.isPrefixOf "select".data
      (pyLower baseQueryStr.data ++ Nat.toDigits 10 n) = true :=
    isPrefixOf_append_left _ _ _ (by decide)
  have hgold : isSubstring "gold_price".data
      (pyLower baseQueryStr.data ++ Nat.toDigits 10 n) = true :=
    isSubstring_append_left _ _ _ (by decide)
  have hsemi : isSubstring [';'] (pyLower baseQueryStr.data ++ Nat.toDigits 10 n) = false := by
    cases hx : isSubstring [';'] (pyLower baseQueryStr.data ++ Nat.toDigits 10 n) with
    | false => rfl
    | true =>
      exfalso
      rcases List.mem_append.mp (isSubstring_singleton_mem hx) with h | h
      · exact absurd h (by decide)
      · exact absurd (hD _ h) (by decide)
  have hkwAll : ∀ k ∈ forbidden_keywords,
      isSubstring k.data (pyLower baseQueryStr.data) = false ∧ k.data ≠ [] ∧
        (∀ c ∈ k.data, c ∉ digitChars) := by decide
  have hkw : forbidden_keywords.any
      (fun k => isSubstring k.data (pyLower baseQueryStr.data ++ Nat.toDigits 10 n))
        = false := by
    rw [List.any_eq_false]
    intro k hk
    obtain ⟨h3, h1, h2⟩ := hkwAll k hk
    simp [isSubstring_digits_append_false h1 h2 hD h3]
  simp only [is_safe_sql_chars, hlow, hempty, hsel, hgold, hsemi, hkw]
  simp

lemma limit_query_safe (n : Nat) :
    is_safe_sql (baseQueryStr ++ Nat.repr n) = true := by
  unfold is_safe_sql
  rw [String.data_append]
  exact limit_query_chars_safe n

lemma toString_int_of_pos {days : Int} (h : 1 ≤ days) :
    toString days = Nat.repr days.toNat := by
  cases days with
  | ofNat m => rfl
  | negSucc m => exfalso; rw [Int.negSucc_eq] at h; omega

lemma rangeQueryStr_safe {days : Int} (h1 : 1 ≤ days) :
    is_safe_sql (rangeQueryStr days) = true := by
  have h2 : rangeQueryStr days = baseQueryStr ++ toString days := rfl
  rw [h2, toString_int_of_pos h1]
  exact limit_query_safe days.toNat

/-- Unfolded form of `is_safe_sql` with the local `sql_lower` substituted. -/
lemma is_safe_sql_eq (sql : String) :
    is_safe_sql sql =
      (if sql.data.isEmpty then false
       else if !(List.isPrefixOf "select".data (pyLower (pyStrip sql.data))) then false
       else if !(isSubstring "gold_price".data (pyLower (pyStrip sql.data))) then false
       else if isSubstring [';'] (pyLower (pyStrip sql.data))
               && !(pyRstripSemi (pyRstrip (pyLower (pyStrip sql.data)))
                     == pyRstrip (pyLower (pyStrip sql.data))) then false
       else if forbidden_keywords.any
           (fun k => isSubstring k.data (pyLower (pyStrip sql.data))) then false
       else true) := rfl

lemma connectOk_of_check {ρ : Type} {env : Env ρ}
    (h : check_database_exists env = true) : env.connectOk = true := by
  cases hc : env.connectOk with
  | true => rfl
  | false =>
    exfalso
    unfold check_database_exists at h
    rw [hc] at h
    simp at h

lemma sqlite_error_ne_rejection (e : String) : "SQLite error: " ++ e ≠ rejectionMsg := by
  intro h
  have h2 := congrArg String.data h
  rw [String.data_append] at h2
  have h3 : ('S' :: "QLite error: ".data) ++ e.data
      = 'O' :: "nly safe SELECT queries on the gold_price table are allowed.".data := h2
  rw [List.cons_append] at h3
  injection h3 with h4 h5
  exact absurd h4 (by decide)

lemma no_rejection {ρ : Type} (env : Env ρ) (sql : String)
    (hsafe : is_safe_sql sql = true) :
    execute_sql_query env sql ≠ .failure rejectionMsg none := by
  unfold execute_sql_query
  cases hchk : check_database_exists env with
  | false => simp
  | true =>
    have hco := connectOk_of_check hchk
    rw [hsafe, hco]
    simp only [Bool.not_true, Bool.false_eq_true, if_false]
    cases hex : env.exec sql with
    | ok rows => simp
    | error e =>
      intro h
      injection h with h1 h2
      exact sqlite_error_ne_rejection e h1

/-- A database environment whose probes all succeed: the file exists, the
`gold_price` table is found, and queries return three rows. -/
def envReady : Env Int :=
  { fileExists := true
    dbPathAbs := dbPathAbsStr
    connectOk := true
    connectErrMsg := ""
    tableProbe := .ok true
    exec := fun _ => .ok [9, 8, 5]
    pragmaInfo := .ok []
    countRows := .ok 3 }

/-- A database environment in which the database file does not exist. -/
def envMissing : Env Int :=
  { fileExists := false
    dbPathAbs := dbPathAbsStr
    connectOk := true
    connectErrMsg := ""
    tableProbe := .ok true
    exec := fun _ => .ok []
    pragmaInfo := .ok []
    countRows := .ok 0 }

/-- A database environment in which the file exists and `sqlite3.connect`
succeeds but every statement raises `sqlite3.Error`. -/
def envProbeError : Env Int :=
  { fileExists := true
    dbPathAbs := dbPathAbsStr
    connectOk := true
    connectErrMsg := ""
    tableProbe := .error "disk I/O error"
    exec := fun _ => .error "disk I/O error"
    pragmaInfo := .error "disk I/O error"
    countRows := .error "disk I/O error" }

/-- A database environment in which the table lookup succeeds but the
`COUNT(*)` query raises `sqlite3.Error`. -/
def envCountError : Env Int :=
  { fileExists := true
    dbPathAbs := dbPathAbsStr
    connectOk := true
    connectErrMsg := ""
    tableProbe := .ok true
    exec := fun _ => .ok []
    pragmaInfo := .ok []
    countRows := .error "database disk image is malformed" }

/-- Modelled from the spec: the external SQLite driver's row set for the
fixed query family `SELECT * FROM gold_price ORDER BY date DESC LIMIT n`
over a `gold_price` table whose rows are represented by their `date` key —
the table's rows sorted by `date` descending, truncated to the first `n`
(the driver itself is not part of this repository; the spec fixes this
behaviour in its sections 4.4 and 8). -/
def limitQueryModel (table : List Int) (n : Nat) : List Int :=
  (table.insertionSort (fun a b => b ≤ a)).take n

lemma limitQueryModel_length (table : List Int) (n : Nat) :
    (limitQueryModel table n).length ≤ n := by
  unfold limitQueryModel
  rw [List.length_take]
  exact min_le_left _ _

lemma limitQueryModel_sorted (table : List Int) (n : Nat) :
    List.Sorted (fun a b => b ≤ a) (limitQueryModel table n) := by
  unfold limitQueryModel
  exact List.Pairwise.sublist (List.take_sublist n _)
    (List.sorted_insertionSort (fun a b : Int => b ≤ a) table)

/-- C1: the claim states that `is_safe_sql` rejects every string in which a
semicolon is followed by further non-whitespace, non-semicolon content (in
particular the two-statement string) and does not reject a single trailing
semicolon.  The code does the opposite: the test on source line 50 compares
`sql_lower.rstrip().rstrip(';')` with `sql_lower.rstrip()`, and since the
normalised string has no trailing whitespace this rejects exactly the
strings that end in a semicolon — so the two-statement string is accepted
and the single-trailing-semicolon query is rejected. -/
theorem C1_semicolon_check_inverted :
    is_safe_sql "select * from gold_price; select * from gold_price" = true ∧
    is_safe_sql "select * from gold_price;" = false := by
  constructor <;> decide

/-- C2: every string whose trimmed, lower-cased form contains one of the
eleven forbidden keywords as a substring is rejected by `is_safe_sql`,
regardless of context. -/
theorem C2_forbidden_keyword_rejected (sql : String)
    (h : ∃ k ∈ forbidden_keywords,
        isSubstring k.data (pyLower (pyStrip sql.data)) = true) :
    is_safe_sql sql = false := by
  obtain ⟨k, hk, hsub⟩ := h
  rw [is_safe_sql_eq]
  split_ifs with h1 h2 h3 h4 h5
  · rfl
  · rfl
  · rfl
  · rfl
  · rfl
  · exact absurd (List.any_eq_true.mpr ⟨k, hk, hsub⟩) h5

/-- C2 witness: a keyword inside an otherwise plausible query is rejected. -/
theorem C2_witness : is_safe_sql "select gold_price drop" = false :=
  C2_forbidden_keyword_rejected _ (by decide)

/-- C3: `is_safe_sql` rejects the empty string and every string whose
trimmed, lower-cased form does not start with `select`. -/
theorem C3_empty_or_no_select_rejected (sql : String)
    (h : sql = "" ∨
        List.isPrefixOf "select".data (pyLower (pyStrip sql.data)) = false) :
    is_safe_sql sql = false := by
  rw [is_safe_sql_eq]
  split_ifs with h1 h2 h3 h4 h5
  · rfl
  · rfl
  · rfl
  · rfl
  · rfl
  · rcases h with h | h
    · exfalso; apply h1; rw [h]; rfl
    · exfalso; apply h2; rw [h]; rfl

/-- C3 witness: a mutation statement does not start with `select`. -/
theorem C3_witness : is_safe_sql "insert into gold_price" = false :=
  C3_empty_or_no_select_rejected _ (Or.inr (by decide))

/-- C4: `is_safe_sql` rejects every string whose trimmed, lower-cased form
lacks the `gold_price` substring; `select * from other_table` is rejected
and the canonical `select * from gold_price` is accepted. -/
theorem C4_gold_price_required :
    (∀ sql : String,
        isSubstring "gold_price".data (pyLower (pyStrip sql.data)) = false →
        is_safe_sql sql = false) ∧
    is_safe_sql "select * from other_table" = false ∧
    is_safe_sql "select * from gold_price" = true := by
  refine ⟨?_, by decide, by decide⟩
  intro sql h
  rw [is_safe_sql_eq]
  split_ifs with h1 h2 h3 h4 h5
  · rfl
  · rfl
  · rfl
  · rfl
  · rfl
  · exfalso; apply h3; rw [h]; rfl

/-- C4 witness: a query on another table lacks the `gold_price` substring. -/
theorem C4_witness : is_safe_sql "select * from silver_price" = false :=
  C4_gold_price_required.1 _ (by decide)

/-- C5: `get_price_range` returns the fixed `Failure` for every `days`
outside `[1, 365]`, the same result for every environment (no database
probe, no query); for `days` inside the range it delegates to the executor
with the interpolated fixed query; and when the driver behaves as the
`ORDER BY date DESC LIMIT days` model, the result is a success holding at
most `days` rows sorted most-recent-first. -/
theorem C5_get_price_range :
    (∀ (ρ : Type) (env : Env ρ) (days : Int), days < 1 ∨ days > 365 →
        get_price_range env days = .failure "Days must be between 1 and 365" none) ∧
    (∀ (ρ : Type) (env : Env ρ) (days : Int), 1 ≤ days → days ≤ 365 →
        get_price_range env days = execute_sql_query env (rangeQueryStr days)) ∧
    (∀ (env : Env Int) (table : List Int) (days : Int), 1 ≤ days → days ≤ 365 →
        check_database_exists env = true →
        env.exec (rangeQueryStr days) = .ok (limitQueryModel table days.toNat) →
        get_price_range env days
            = .success (limitQueryModel table days.toNat)
                (limitQueryModel table days.toNat).length (rangeQueryStr days) ∧
          (limitQueryModel table days.toNat).length ≤ days.toNat ∧
          List.Sorted (fun a b => b ≤ a) (limitQueryModel table days.toNat)) := by
  refine ⟨?_, ?_, ?_⟩
  · intro ρ env days h
    unfold get_price_range
    rw [if_pos h]
  · intro ρ env days h1 h2
    unfold get_price_range
    rw [if_neg (by omega)]
  · intro env table days h1 h2 hchk hex
    refine ⟨?_, limitQueryModel_length table days.toNat,
      limitQueryModel_sorted table days.toNat⟩
    unfold get_price_range
    rw [if_neg (by omega)]
    unfold execute_sql_query
    rw [hchk, rangeQueryStr_safe h1, connectOk_of_check hchk, hex]
    rfl

/-- C5 witness: `days = 0` yields the fixed failure, and `days = 7` against
a three-row table yields a success with three rows sorted descending. -/
theorem C5_witness :
    get_price_range envReady 0 = .failure "Days must be between 1 and 365" none ∧
    (get_price_range envReady 7
        = .success (limitQueryModel [5, 9, 8] (7 : Int).toNat)
            (limitQueryModel [5, 9, 8] (7 : Int).toNat).length (rangeQueryStr 7) ∧
      (limitQueryModel [5, 9, 8] (7 : Int).toNat).length ≤ (7 : Int).toNat ∧
      List.Sorted (fun a b => b ≤ a) (limitQueryModel [5, 9, 8] (7 : Int).toNat)) :=
  ⟨C5_get_price_range.1 Int envReady 0 (Or.inl (by decide)),
   C5_get_price_range.2.2 envReady [5, 9, 8] 7 (by decide) (by decide) (by decide) rfl⟩

/-- C6: `execute_sql_query` checks its preconditions in order: a failing
existence check yields the setup failure carrying the resolved absolute
path whatever the query is; with the check passing, an unsafe query yields
the fixed rejection failure, whose message is the constant `rejectionMsg`
(it echoes neither the query nor the rule); and for an unsafe query the
result does not depend on the driver's query execution at all. -/
theorem C6_execute_preconditions :
    (∀ (ρ : Type) (env : Env ρ) (sql : String), check_database_exists env = false →
        execute_sql_query env sql = .failure setupErrorMsg (some env.dbPathAbs)) ∧
    (∀ (ρ : Type) (env : Env ρ) (sql : String), check_database_exists env = true →
        is_safe_sql sql = false →
        execute_sql_query env sql = .failure rejectionMsg none) ∧
    (∀ (ρ : Type) (env : Env ρ) (f g : String → Except String (List ρ)) (sql : String),
        is_safe_sql sql = false →
        execute_sql_query { env with exec := f } sql
          = execute_sql_query { env with exec := g } sql) := by
  refine ⟨?_, ?_, ?_⟩
  · intro ρ env sql h
    unfold execute_sql_query
    rw [h]
    rfl
  · intro ρ env sql hchk hsafe
    unfold execute_sql_query
    rw [hchk, hsafe]
    rfl
  · intro ρ env f g sql hsafe
    unfold execute_sql_query
    have hcheq : check_database_exists { env with exec := g }
        = check_database_exists { env with exec := f } := rfl
    rw [hcheq]
    cases hchk : check_database_exists { env with exec := f } with
    | false => rfl
    | true => rw [hsafe]; rfl

/-- C6 witness: a missing database yields the setup failure with the
resolved path, and an unsafe query against a ready database yields the
fixed rejection failure. -/
theorem C6_witness :
    execute_sql_query envMissing "select * from gold_price"
        = .failure setupErrorMsg (some envMissing.dbPathAbs) ∧
    execute_sql_query envReady "drop table gold_price"
        = .failure rejectionMsg none :=
  ⟨C6_execute_preconditions.1 Int envMissing _ (by decide),
   C6_execute_preconditions.2.1 Int envReady _ (by decide) (by decide)⟩

/-- C7: when both gates pass and the driver returns rows, `run_query`
returns a success whose `row_count` is the length of the returned row list
and whose `query` field is exactly the caller's input string. -/
theorem C7_run_query_success (ρ : Type) (env : Env ρ) (sql : String) (rows : List ρ)
    (hchk : check_database_exists env = true) (hsafe : is_safe_sql sql = true)
    (hex : env.exec sql = .ok rows) :
    run_query env sql = .success rows rows.length sql := by
  unfold run_query execute_sql_query
  rw [hchk, hsafe, connectOk_of_check hchk, hex]
  rfl

/-- C7 witness: a concrete ready environment returning three rows. -/
theorem C7_witness :
    run_query envReady "select * from gold_price"
        = .success [9, 8, 5] 3 "select * from gold_price" :=
  C7_run_query_success Int envReady "select * from gold_price" [9, 8, 5]
    (by decide) (by decide) rfl

/-- C8: when the database file does not exist, every operation other than
the input-validation-only path returns the structured failure (or the
`missing` status) carrying the resolved absolute database path; all
operations are total functions of the environment, so no exception
escapes. -/
theorem C8_missing_database (ρ : Type) (env : Env ρ) (h : env.fileExists = false) :
    (∀ sql, run_query env sql = .failure setupErrorMsg (some env.dbPathAbs)) ∧
    get_table_info env = .failure setupErrorMsg (some env.dbPathAbs) ∧
    sample_data env = .failure setupErrorMsg (some env.dbPathAbs) ∧
    get_latest_price env = .failure setupErrorMsg (some env.dbPathAbs) ∧
    (∀ days : Int, 1 ≤ days → days ≤ 365 →
        get_price_range env days = .failure setupErrorMsg (some env.dbPathAbs)) ∧
    (database_status env).status = .missing ∧
    (database_status env).database_path = env.dbPathAbs := by
  have hchk : check_database_exists env = false := by
    unfold check_database_exists
    rw [h]
    rfl
  refine ⟨?_, ?_, ?_, ?_, ?_, ?_, ?_⟩
  · intro sql
    unfold run_query execute_sql_query
    rw [hchk]
    rfl
  · unfold get_table_info
    rw [hchk]
    rfl
  · unfold sample_data execute_sql_query
    rw [hchk]
    rfl
  · unfold get_latest_price execute_sql_query
    rw [hchk]
    rfl
  · intro days h1 h2
    unfold get_price_range
    rw [if_neg (by omega)]
    unfold execute_sql_query
    rw [hchk]
    rfl
  · unfold database_status
    rw [h]
    rfl
  · unfold database_status
    rw [h]
    rfl

/-- C8 witness: the concrete missing-file environment. -/
theorem C8_witness :
    run_query envMissing "select 1 from gold_price"
        = .failure setupErrorMsg (some envMissing.dbPathAbs) ∧
    (database_status envMissing).status = StatusKind.missing :=
  ⟨(C8_missing_database Int envMissing rfl).1 _,
   (C8_missing_database Int envMissing rfl).2.2.2.2.2.1⟩

/-- C9: the claim states that every connection opened by any operation —
including the existence check and the status check — is closed before the
operation returns on every exit path.  The code violates this: neither
`check_database_exists` nor `database_status` has a `finally` clause, so
when a statement raises `sqlite3.Error` after a successful connect, the
function returns from its `except` arm with the connection still open.
The traces below exhibit both leaks: the existence check returns after one
`opened` with no `closed`, and the status check returns after two `opened`
with only one `closed`. -/
theorem C9_connection_leak_eval :
    (check_database_exists_tr envProbeError).1 = false ∧
    (check_database_exists_tr envProbeError).2 = [ConnEv.opened] ∧
    (database_status_tr envCountError).1.status = StatusKind.error ∧
    (database_status_tr envCountError).2
        = [ConnEv.opened, ConnEv.closed, ConnEv.opened] :=
  ⟨rfl, rfl, rfl, rfl⟩

/-- C10: the canned queries of `sample_data`, `get_latest_price` and
`get_price_range` (for every `days` in `[1, 365]`) all pass the safety
gate, so none of these operations can ever return the unsafe-SQL rejection
failure. -/
theorem C10_canned_queries_safe :
    is_safe_sql "SELECT * FROM gold_price ORDER BY date DESC LIMIT 5" = true ∧
    is_safe_sql "SELECT * FROM gold_price ORDER BY date DESC LIMIT 1" = true ∧
    (∀ days : Int, 1 ≤ days → days ≤ 365 →
        is_safe_sql (rangeQueryStr days) = true) ∧
    (∀ (ρ : Type) (env : Env ρ), sample_data env ≠ .failure rejectionMsg none) ∧
    (∀ (ρ : Type) (env : Env ρ), get_latest_price env ≠ .failure rejectionMsg none) ∧
    (∀ (ρ : Type) (env : Env ρ) (days : Int), 1 ≤ days → days ≤ 365 →
        get_price_range env days ≠ .failure rejectionMsg none) := by
  refine ⟨by decide, by decide, ?_, ?_, ?_, ?_⟩
  · intro days h1 _h2
    exact rangeQueryStr_safe h1
  · intro ρ env
    exact no_rejection env _ (by decide)
  · intro ρ env
    exact no_rejection env _ (by decide)
  · intro ρ env days h1 h2
    unfold get_price_range
    rw [if_neg (by omega)]
    exact no_rejection env _ (rangeQueryStr_safe h1)

/-- C10 witness: the interpolated query for `days = 7` is safe and the
range operation cannot produce the rejection failure even when the
database is missing. -/
theorem C10_witness :
    is_safe_sql (rangeQueryStr 7) = true ∧
    get_price_range envMissing 7 ≠ QueryResult.failure rejectionMsg none :=
  ⟨C10_canned_queries_safe.2.2.1 7 (by decide) (by decide),
   C10_canned_queries_safe.2.2.2.2.2 Int envMissing 7 (by decide) (by decide)⟩

end GoldPriceServer
